/-
Verification of the nmi-payment gateway-integration service.

This file gives a shallow embedding of the service's core logic — the
request validators, the gateway response parser / error classifier, and
the payment orchestrator with its in-memory idempotency guard — and
proves (or refutes) the specified properties about them.

Conventions of the embedding:
* Go strings are Lean `String`s; the wire parser works on `List Char`
  (the service only ever handles ASCII payloads, where Go's byte-level
  operations and Lean's char-level operations agree).
* `strconv.ParseFloat` (64-bit) is modelled faithfully as IEEE-754
  binary64: decimal forms with optional exponent, and the inf/nan
  specials, are parsed exactly and then correctly rounded (round to
  nearest, ties to even, subnormals, overflow to ±Inf); comparisons
  follow float semantics (NaN compares false).  The hex-float and
  digit-separating-underscore forms Go additionally accepts never arise
  from this service's inputs and are mapped to the ignored error case,
  which the Go callers turn into the value 0.
* `time.Now()` is modelled by passing the current two-digit year and
  month explicitly.
* The single network call (`sendRequest`) is modelled as an explicit
  `Except NMIError String` argument (the gateway's raw reply or a
  transport error), and each orchestrator result records the form data
  it dispatched, if any, so "no network call was made" is observable.
* Go's `error` values are either a classified `*NMIError` or a generic
  `fmt.Errorf` string; `GoError` has one constructor for each.
-/
import Mathlib

set_option autoImplicit false

namespace NMIPay

/-! ## Error taxonomy (src/api/errors.go) -/

def ErrInvalidCard : String := "invalid_card"
def ErrInvalidAmount : String := "invalid_amount"
def ErrInvalidRequest : String := "invalid_request"
def ErrDuplicateTransaction : String := "duplicate_transaction"
def ErrProcessingError : String := "processing_error"
def ErrPartialResponse : String := "partial_response"
def ErrInvalidRefund : String := "invalid_refund"
def ErrNetworkError : String := "network_error"
def ErrAuthenticationFailed : String := "authentication_failed"
def ErrInvalidAction : String := "invalid_action"
def ErrSystemError : String := "system_error"

/-- Structured error response (Go struct `NMIError`). -/
structure NMIError where
  Code : String
  Message : String
  Details : String := ""
  Raw : String := ""
deriving DecidableEq, Repr

/-- A Go `error` value in this code base: either a classified `*NMIError`
or an unclassified `fmt.Errorf` message. -/
inductive GoError where
  | nmi (e : NMIError)
  | generic (msg : String)
deriving DecidableEq, Repr

/-! ## Character and digit helpers -/

/-- Numeric value of an ASCII digit character. -/
def digitVal (c : Char) : Nat := c.toNat - '0'.toNat

/-- Value of a digit string, most significant first (`strconv.Atoi` on an
all-digit string). -/
def digitsToNat (l : List Char) : Nat :=
  l.foldl (fun a c => 10 * a + digitVal c) 0

def isHexDigit (c : Char) : Bool :=
  c.isDigit || ('a' ≤ c && c ≤ 'f') || ('A' ≤ c && c ≤ 'F')

def hexVal (c : Char) : Nat :=
  if c.isDigit then digitVal c
  else if 'a' ≤ c && c ≤ 'f' then c.toNat - 'a'.toNat + 10
  else c.toNat - 'A'.toNat + 10

/-! ## Form decoding (net/url.ParseQuery as used by the parser) -/

/-- Split a character list on every occurrence of `sep`
(`strings.Cut` iterated, as in Go's `parseQuery` loop over `&`). -/
def splitOnChar (sep : Char) : List Char → List (List Char)
  | [] => [[]]
  | c :: rest =>
    if c = sep then [] :: splitOnChar sep rest
    else
      match splitOnChar sep rest with
      | s :: ss => (c :: s) :: ss
      | [] => [[c]]

/-- `strings.Cut l sep`: the part before the first `sep` and the part
after it (the whole list and `[]` when `sep` is absent). -/
def cutChar (sep : Char) : List Char → List Char × List Char
  | [] => ([], [])
  | c :: rest =>
    if c = sep then ([], rest)
    else
      let p := cutChar sep rest
      (c :: p.1, p.2)

/-- `url.QueryUnescape`: `+` decodes to a space, `%hh` to the byte with
hex value `hh`; a `%` not followed by two hex digits is an error. -/
def queryUnescape : List Char → Option (List Char)
  | [] => some []
  | '%' :: rest =>
    match rest with
    | a :: b :: rest' =>
      if isHexDigit a && isHexDigit b then
        (queryUnescape rest').map (fun t => Char.ofNat (hexVal a * 16 + hexVal b) :: t)
      else none
    | _ => none
  | '+' :: rest => (queryUnescape rest).map (fun t => ' ' :: t)
  | c :: rest => (queryUnescape rest).map (fun t => c :: t)

/-- The loop body of Go's `url.parseQuery`: empty segments are skipped, a
segment containing `;` or with an invalid escape sets the error flag and
is dropped, every other segment is cut at its first `=` and both halves
are unescaped.  Returns the decoded pairs in order and `true` when no
error occurred. -/
def parseSegments : List (List Char) → List (List Char × List Char) × Bool
  | [] => ([], true)
  | seg :: rest =>
    let p := parseSegments rest
    if seg = [] then p
    else if seg.contains ';' then (p.1, false)
    else
      let kv := cutChar '=' seg
      match queryUnescape kv.1, queryUnescape kv.2 with
      | some k, some v => ((k, v) :: p.1, p.2)
      | _, _ => (p.1, false)

/-- `url.ParseQuery`: the decoded key-value pairs in order, plus `true`
iff decoding raised no error. -/
def parseQuery (raw : String) : List (List Char × List Char) × Bool :=
  parseSegments (splitOnChar '&' raw.data)

/-- `url.Values.Get`: the first value recorded under `key`, or `""`. -/
def getFirst (pairs : List (List Char × List Char)) (key : List Char) : String :=
  match pairs with
  | [] => ""
  | (k, v) :: rest => if k = key then ⟨v⟩ else getFirst rest key

/-- Projection of one decoded field out of a raw response
(`values.Get key` after `url.ParseQuery`). -/
def getField (raw key : String) : String :=
  getFirst (parseQuery raw).1 key.data

/-! ## Response parser / error classifier
(src/api/errors.go `ParseNMIErrorResponse`, src parser `ParseNMIResponse`) -/

/-- First index at which `pat` occurs in a list (`strings.Index`). -/
def findIdx (pat : List Char) : List Char → Option Nat
  | [] => if pat = [] then some 0 else none
  | c :: rest =>
    if pat.isPrefixOf (c :: rest) then some 0
    else (findIdx pat rest).map (fun i => i + 1)

/-- The Go map literal from `ParseNMIErrorResponse` mapping NMI response
codes to taxonomy codes. -/
def codeMap : List (String × String) :=
  [("200", ErrInvalidCard),
   ("201", ErrInvalidAmount),
   ("300", ErrAuthenticationFailed),
   ("400", ErrProcessingError),
   ("500", ErrSystemError),
   ("600", ErrInvalidAction),
   ("601", ErrDuplicateTransaction),
   ("700", ErrNetworkError)]

/-- `ParseNMIErrorResponse`: classify a gateway failure.  The details
field carries the suffix of the response text from `REFID:` on, when
present; an unmapped or missing response code classifies as
`processing_error`. -/
def ParseNMIErrorResponse (responseText responseCode rawResponse : String) : NMIError :=
  let details : String :=
    match findIdx "REFID:".data responseText.data with
    | some i => ⟨responseText.data.drop i⟩
    | none => ""
  let code : String :=
    match codeMap.lookup responseCode with
    | some c => c
    | none => ErrProcessingError
  { Code := code, Message := responseText, Details := details, Raw := rawResponse }

/-- Typed gateway response record (Go struct `NMIResponse`).  The Go
field `Type` is called `TypeF` here because `Type` is reserved in Lean. -/
structure NMIResponse where
  Response : String
  ResponseText : String
  AuthCode : String
  TransactionID : String
  AVSResponse : String
  CVVResponse : String
  OrderID : String
  TypeF : String
  ResponseCode : String
  Amount : String
  CustomerVaultID : String
deriving DecidableEq, Repr

/-- Outcome of `ParseNMIResponse`: the wire text failed to decode
(`url.ParseQuery` error, surfaced as a wrapped generic error), decoded
but the `response` field is not `"1"` (the record plus the classified
error are returned), or decoded successfully. -/
inductive NMIParseResult where
  | malformed
  | declined (r : NMIResponse) (e : NMIError)
  | ok (r : NMIResponse)
deriving DecidableEq, Repr

/-- The record `ParseNMIResponse` builds from the decoded fields
(`values.Get` of each projected key). -/
def projectResponse (rawResponse : String) : NMIResponse :=
  { Response := getField rawResponse "response"
    ResponseText := getField rawResponse "responsetext"
    AuthCode := getField rawResponse "authcode"
    TransactionID := getField rawResponse "transactionid"
    AVSResponse := getField rawResponse "avsresponse"
    CVVResponse := getField rawResponse "cvvresponse"
    OrderID := getField rawResponse "orderid"
    TypeF := getField rawResponse "type"
    ResponseCode := getField rawResponse "response_code"
    Amount := getField rawResponse "amount"
    CustomerVaultID := getField rawResponse "customer_vault_id" }

/-- `ParseNMIResponse`: decode the flat wire format, project the common
fields, and succeed exactly when the `response` field is `"1"`. -/
def ParseNMIResponse (rawResponse : String) : NMIParseResult :=
  if (parseQuery rawResponse).2 then
    if (projectResponse rawResponse).Response ≠ "1" then
      .declined (projectResponse rawResponse)
        (ParseNMIErrorResponse (projectResponse rawResponse).ResponseText
          (projectResponse rawResponse).ResponseCode rawResponse)
    else .ok (projectResponse rawResponse)
  else .malformed

/-- `ExtractValue`: pull one field out of a raw response; an unparsable
response yields `""`, not an error. -/
def ExtractValue (rawResponse key : String) : String :=
  if (parseQuery rawResponse).2 then getField rawResponse key else ""

/-! ## Validators (src validation file) -/

/-- The regex `^\d+\.\d{2}$` from `validateAmount` and
`ValidateRefundRequest`: a nonempty digit run, a dot, exactly two
digits.  Since `\d` never matches `.`, the maximal leading digit run
must be followed by exactly `.` and two digits. -/
def matchAmount (s : String) : Bool :=
  let ds := s.data.takeWhile Char.isDigit
  let rest := s.data.dropWhile Char.isDigit
  ds ≠ [] &&
    match rest with
    | ['.', a, b] => a.isDigit && b.isDigit
    | _ => false

/-- The exact rational value a plain decimal numeral (optional sign,
digits, optional `.` and fraction digits) denotes, and 0 for any other
form.  This is the specification-side notion of "the amount the string
names", used to state what the float64 code under test does and does
not decide exactly. -/
def decimalValue (s : String) : Rat :=
  let neg : Bool :=
    match s.data with
    | '-' :: _ => true
    | _ => false
  let body : List Char :=
    match s.data with
    | '-' :: rest => rest
    | '+' :: rest => rest
    | l => l
  let val : Option Rat :=
    match splitOnChar '.' body with
    | [a] =>
      if a ≠ [] ∧ a.all Char.isDigit then
        some (Rat.divInt (Int.ofNat (digitsToNat a)) 1)
      else none
    | [a, b] =>
      if (a ≠ [] ∨ b ≠ []) ∧ a.all Char.isDigit ∧ b.all Char.isDigit then
        some (Rat.divInt
          (Int.ofNat (digitsToNat a * 10 ^ b.length + digitsToNat b))
          (Int.ofNat (10 ^ b.length)))
      else none
    | _ => none
  match val with
  | some v => if neg then -v else v
  | none => 0

/-- A Go float64 value as produced by `strconv.ParseFloat`: a finite
binary64 value (an exact rational of the form ±m·2^e), an infinity, or
NaN. -/
inductive GoFloat where
  | finite (v : Rat)
  | posInf
  | negInf
  | nan
deriving DecidableEq, Repr

/-- Go's `<` on float64; every comparison involving NaN is false. -/
def GoFloat.lt : GoFloat → GoFloat → Bool
  | .finite a, .finite b => decide (a < b)
  | .finite _, .posInf => true
  | .negInf, .finite _ => true
  | .negInf, .posInf => true
  | _, _ => false

/-- Go's `<=` on float64; every comparison involving NaN is false. -/
def GoFloat.le : GoFloat → GoFloat → Bool
  | .finite a, .finite b => decide (a ≤ b)
  | .finite _, .posInf => true
  | .negInf, .finite _ => true
  | .negInf, .posInf => true
  | .negInf, .negInf => true
  | .posInf, .posInf => true
  | _, _ => false

/-- Bit length of a natural number, with explicit fuel (the number
itself is enough fuel, since halving reaches 0 first). -/
def bitLenFuel : Nat → Nat → Nat
  | 0, _ => 0
  | fuel + 1, n => if n = 0 then 0 else bitLenFuel fuel (n / 2) + 1

/-- Number of binary digits of `n` (0 for 0). -/
def natBitLen (n : Nat) : Nat := bitLenFuel n n

/-- Correct rounding of the nonnegative rational `n / d` (`d ≥ 1`) to
IEEE-754 binary64: round to nearest with ties to even, subnormals below
2^(-1022), and overflow to +Inf past the largest finite double.  The
binade exponent is located by a bit-length guess corrected by at most
one in each direction, then the 53-bit significand (or the subnormal
significand at scale 2^(-1074)) is rounded with exact integer
arithmetic. -/
def roundFloat64Pos (n d : Nat) : GoFloat :=
  if n = 0 then .finite 0
  else
    let qGe : Int → Bool := fun k =>
      if 0 ≤ k then d * 2 ^ k.toNat ≤ n else d ≤ n * 2 ^ (-k).toNat
    let e0 : Int :=
      if d ≤ n then Int.ofNat (natBitLen (n / d) - 1)
      else -(Int.ofNat (natBitLen (d / n) - 1) + 1)
    let e1 : Int := if qGe (e0 + 1) then e0 + 1 else e0
    let e2 : Int := if qGe e1 then e1 else e1 - 1
    let expo : Int := max (e2 - 52) (-1074)
    let A : Nat := if 0 ≤ expo then n else n * 2 ^ (-expo).toNat
    let B : Nat := if 0 ≤ expo then d * 2 ^ expo.toNat else d
    let m : Nat :=
      if B < 2 * (A % B) then A / B + 1
      else if 2 * (A % B) < B then A / B
      else if A / B % 2 = 0 then A / B else A / B + 1
    if 0 ≤ expo ∧ 2 ^ 1024 ≤ m * 2 ^ expo.toNat then .posInf
    else if 0 ≤ expo then .finite (Rat.divInt (Int.ofNat (m * 2 ^ expo.toNat)) 1)
    else .finite (Rat.divInt (Int.ofNat m) (Int.ofNat (2 ^ (-expo).toNat)))

/-- The decimal mantissa of a float literal: leading digits, an
optional dot and fraction digits, with at least one digit in total.
Returns the numerator, the power-of-ten denominator, and the unconsumed
rest (the exponent part, if any). -/
def parseDecMantissa (l : List Char) : Option (Nat × Nat × List Char) :=
  match l.dropWhile Char.isDigit with
  | '.' :: rest2 =>
    if l.takeWhile Char.isDigit = [] ∧ rest2.takeWhile Char.isDigit = [] then none
    else
      some (digitsToNat (l.takeWhile Char.isDigit ++ rest2.takeWhile Char.isDigit),
        10 ^ (rest2.takeWhile Char.isDigit).length,
        rest2.dropWhile Char.isDigit)
  | rest1 =>
    if l.takeWhile Char.isDigit = [] then none
    else some (digitsToNat (l.takeWhile Char.isDigit), 1, rest1)

/-- The optional exponent part of a float literal: empty, or `e`/`E`
with an optional sign and at least one digit; anything else is a syntax
error (`none`). -/
def parseExpPart : List Char → Option Int
  | [] => some 0
  | c :: rest =>
    if c = 'e' ∨ c = 'E' then
      match rest with
      | '-' :: r =>
        if r ≠ [] ∧ r.all Char.isDigit then some (-(Int.ofNat (digitsToNat r)))
        else none
      | '+' :: r =>
        if r ≠ [] ∧ r.all Char.isDigit then some (Int.ofNat (digitsToNat r))
        else none
      | r =>
        if r ≠ [] ∧ r.all Char.isDigit then some (Int.ofNat (digitsToNat r))
        else none
    else none

/-- `strconv.ParseFloat` with bit size 64: an optional sign, then either
the case-insensitive specials inf/infinity/nan or a decimal mantissa
with optional exponent, parsed exactly and correctly rounded to
binary64 (a range error still yields the ±Inf or 0 value, and every
call site ignores the error).  A syntax error yields Go's zero value.
The hex-float and digit-separating-underscore forms Go additionally
accepts never arise from this service's inputs and take the error
case. -/
def goParseFloat (s : String) : GoFloat :=
  let neg : Bool :=
    match s.data with
    | '-' :: _ => true
    | _ => false
  let body : List Char :=
    match s.data with
    | '-' :: rest => rest
    | '+' :: rest => rest
    | l => l
  let lower := body.map Char.toLower
  if lower = "inf".data ∨ lower = "infinity".data then
    if neg then .negInf else .posInf
  else if lower = "nan".data then .nan
  else
    match parseDecMantissa body with
    | none => .finite 0
    | some (num, den, rest) =>
      match parseExpPart rest with
      | none => .finite 0
      | some e10 =>
        let n := if 0 ≤ e10 then num * 10 ^ e10.toNat else num
        let d := if 0 ≤ e10 then den else den * 10 ^ (-e10).toNat
        match roundFloat64Pos n d with
        | .finite v => .finite (if neg then -v else v)
        | .posInf => if neg then .negInf else .posInf
        | x => x

/-- `validateAmount`: the two-decimal pattern, then a positivity check on
the parsed value. -/
def validateAmount (amount : String) : Option NMIError :=
  if ¬ matchAmount amount then
    some { Code := ErrInvalidAmount
           Message := "invalid amount format: must be in dollars.cents format (e.g., 10.99)" }
  else if (goParseFloat amount).le (.finite 0) then
    some { Code := ErrInvalidAmount, Message := "amount must be greater than zero" }
  else none

/-- The character class `[\s-]` of the stripping regex in
`validateCreditCard` (Go's `\s` is `[\t\n\f\r ]`). -/
def isStripChar (c : Char) : Bool :=
  c = ' ' || c = '\t' || c = '\n' || c = '\x0c' || c = '\r' || c = '-'

/-- Remove spaces and hyphens from a card number
(`ReplaceAllString` of `[\s-]` with `""`). -/
def stripSpacesHyphens (s : String) : String :=
  ⟨s.data.filter (fun c => !(isStripChar c))⟩

/-- The Luhn loop of `validateCreditCard`, over the digits from the
rightmost (the list is the reversed card number); `alternate` starts
false and toggles each step, doubling (with digit-sum for results over
9) every digit it is true for. -/
def luhnLoop : List Char → Bool → Nat
  | [], _ => 0
  | c :: rest, alternate =>
    let n0 := digitVal c
    let n := if alternate then (if n0 * 2 > 9 then n0 * 2 % 10 + 1 else n0 * 2) else n0
    n + luhnLoop rest (!alternate)

/-- `validateCreditCard`: strip spaces/hyphens (the Go code shadows its
argument with the stripped form), require 13–19 digits (`^\d{13,19}$`),
then the Luhn checksum. -/
def validateCreditCard (number : String) : Option NMIError :=
  if ¬ ((stripSpacesHyphens number).data.all Char.isDigit ∧
        13 ≤ (stripSpacesHyphens number).data.length ∧
        (stripSpacesHyphens number).data.length ≤ 19) then
    some { Code := ErrInvalidCard, Message := "invalid credit card number length" }
  else if luhnLoop (stripSpacesHyphens number).data.reverse false % 10 ≠ 0 then
    some { Code := ErrInvalidCard, Message := "invalid credit card number (failed Luhn check)" }
  else none

/-- The regex `^(0[1-9]|1[0-2])\d{2}$` from `validateExpirationDate`. -/
def matchExpiry (s : String) : Bool :=
  match s.data with
  | [a, b, c, d] =>
    ((a = '0' && '1' ≤ b && b ≤ '9') || (a = '1' && '0' ≤ b && b ≤ '2'))
      && c.isDigit && d.isDigit
  | _ => false

/-- `validateExpirationDate`: MMYY format, then not strictly before the
current month/year.  `currentYear`/`currentMonth` stand for
`time.Now().Year() % 100` and `int(time.Now().Month())`. -/
def validateExpirationDate (expDate : String) (currentYear currentMonth : Nat) :
    Option NMIError :=
  if ¬ matchExpiry expDate then
    some { Code := ErrInvalidCard, Message := "invalid expiration date format (must be MMYY)" }
  else if digitsToNat (expDate.data.drop 2) < currentYear ∨
      (digitsToNat (expDate.data.drop 2) = currentYear ∧
       digitsToNat (expDate.data.take 2) < currentMonth) then
    some { Code := ErrInvalidCard, Message := "card has expired" }
  else none

/-- `validateCVV`: the regex `^\d{3,4}$`. -/
def validateCVV (cvv : String) : Option NMIError :=
  if ¬ ((cvv.data.length = 3 ∨ cvv.data.length = 4) ∧ cvv.data.all Char.isDigit) then
    some { Code := ErrInvalidCard, Message := "invalid CVV (must be 3 or 4 digits)" }
  else none

/-- The `validTypes` set of `validateTransactionType`. -/
def validTypes : List String :=
  ["sale", "auth", "capture", "credit", "validate", "void", "refund"]

/-- `strings.ToLower` on the characters of a string (the transaction
types and billing cycles compared against are all ASCII). -/
def lowerString (s : String) : String :=
  ⟨s.data.map Char.toLower⟩

/-- `validateTransactionType`: case-insensitive membership in the fixed
enum. -/
def validateTransactionType (txType : String) : Option NMIError :=
  if ¬ validTypes.contains (lowerString txType) then
    some { Code := ErrInvalidRequest, Message := "invalid transaction type" }
  else none

/-- Character class `[a-zA-Z0-9._%+-]` of the email regex's local part. -/
def emailLocalChar (c : Char) : Bool :=
  c.isAlphanum || c = '.' || c = '_' || c = '%' || c = '+' || c = '-'

/-- Character class `[a-zA-Z0-9.-]` of the email regex's domain part. -/
def emailDomainChar (c : Char) : Bool :=
  c.isAlphanum || c = '.' || c = '-'

/-- The email regex `^[a-zA-Z0-9._%+-]+@[a-zA-Z0-9.-]+\.[a-zA-Z]{2,}$`.
Neither class matches `@`, so the string must contain exactly one `@`;
the TLD is all-alphabetic, so the dot before it is necessarily the last
dot of the domain, making the decomposition unique. -/
def matchEmail (s : String) : Bool :=
  match splitOnChar '@' s.data with
  | [l, r] =>
    l ≠ [] && l.all emailLocalChar &&
      (let tldRev := r.reverse.takeWhile Char.isAlpha
       let restRev := r.reverse.dropWhile Char.isAlpha
       2 ≤ tldRev.length &&
         match restRev with
         | '.' :: pRev => pRev ≠ [] && pRev.all emailDomainChar
         | _ => false)
  | _ => false

/-- Billing address (Go struct `BillingInfo`). -/
structure BillingInfo where
  FirstName : String := ""
  LastName : String := ""
  Address1 : String := ""
  City : String := ""
  State : String := ""
  Zip : String := ""
  Country : String := ""
  Email : String := ""
  Phone : String := ""
deriving DecidableEq, Repr

/-- `validateBillingInfo`: names and full address required; email and
phone validated only when non-empty (phone keeps only its digits,
`\D` stripped, and needs at least 10 of them). -/
def validateBillingInfo (billing : BillingInfo) : Option NMIError :=
  if billing.FirstName = "" ∨ billing.LastName = "" then
    some { Code := ErrInvalidRequest, Message := "first_name and last_name are required" }
  else if billing.Address1 = "" ∨ billing.City = "" ∨ billing.State = "" ∨ billing.Zip = "" then
    some { Code := ErrInvalidRequest, Message := "complete address is required" }
  else if billing.Email ≠ "" ∧ ¬ matchEmail billing.Email then
    some { Code := ErrInvalidRequest, Message := "invalid email format" }
  else if billing.Phone ≠ "" ∧ (billing.Phone.data.filter Char.isDigit).length < 10 then
    some { Code := ErrInvalidRequest, Message := "invalid phone number" }
  else none

/-- Payment request (Go struct `PaymentRequest`); the Go field `Type` is
`TypeF` here. -/
structure PaymentRequest where
  APIKey : String := ""
  Amount : String := ""
  CreditCard : String := ""
  ExpDate : String := ""
  CVV : String := ""
  Token : String := ""
  CustomerVaultID : String := ""
  TypeF : String := ""
  OrderID : String := ""
  CustomerID : String := ""
  IdempotencyKey : String := ""
  RecurringPayment : Bool := false
  PlanID : String := ""
  Billing : Option BillingInfo := none
deriving DecidableEq, Repr

/-- The trailing billing check shared by both branches of
`ValidatePaymentRequest`. -/
def checkBilling (req : PaymentRequest) : Option GoError :=
  match req.Billing with
  | some b => (validateBillingInfo b).map .nmi
  | none => none

/-- `ValidatePaymentRequest`: presence checks return generic
(`fmt.Errorf`) errors; the format/business checks return classified
`NMIError`s.  `currentYear`/`currentMonth` model `time.Now()` for the
expiry check. -/
def ValidatePaymentRequest (req : PaymentRequest) (currentYear currentMonth : Nat) :
    Option GoError :=
  if req.Amount = "" then some (.generic "amount is required")
  else match validateAmount req.Amount with
  | some e => some (.nmi e)
  | none =>
    if req.TypeF = "" then some (.generic "type is required")
    else match validateTransactionType req.TypeF with
    | some e => some (.nmi e)
    | none =>
      if req.CustomerVaultID = "" then
        if req.CreditCard = "" ∨ req.ExpDate = "" ∨ req.CVV = "" then
          some (.generic "either customer_vault_id or credit_card, exp_date, and cvv are required")
        else match validateCreditCard req.CreditCard with
        | some e => some (.nmi e)
        | none =>
          match validateExpirationDate req.ExpDate currentYear currentMonth with
          | some e => some (.nmi e)
          | none =>
            match validateCVV req.CVV with
            | some e => some (.nmi e)
            | none => checkBilling req
      else if req.CustomerVaultID.utf8ByteSize < 8 then
        some (.generic "customer_vault_id must be at least 8 characters")
      else checkBilling req

/-- Refund request (Go struct `RefundRequest`). -/
structure RefundRequest where
  APIKey : String := ""
  TransactionID : String := ""
  Amount : String := ""
deriving DecidableEq, Repr

/-- `ValidateRefundRequest`: requires a transaction id; when an amount is
present it must match the two-decimal pattern, be positive, and not
exceed the original transaction amount when that is known (non-empty).
An empty amount skips every amount check. -/
def ValidateRefundRequest (req : RefundRequest) (originalAmount : String) :
    Option NMIError :=
  if req.TransactionID = "" then
    some { Code := ErrInvalidRequest, Message := "transaction_id is required" }
  else if req.Amount ≠ "" then
    if ¬ matchAmount req.Amount then
      some { Code := ErrInvalidAmount
             Message := "invalid amount format: must be in dollars.cents format (e.g., 10.99)" }
    else
      let refundAmount := goParseFloat req.Amount
      if refundAmount.le (.finite 0) then
        some { Code := ErrInvalidRefund, Message := "refund amount must be greater than 0" }
      else if originalAmount ≠ "" then
        if (goParseFloat originalAmount).lt refundAmount then
          some { Code := ErrInvalidRefund
                 Message := "refund amount cannot exceed original transaction amount" }
        else none
      else none
  else none

/-! ## Transaction orchestrator (src/api/payment.go) -/

/-- Typed payment result (Go struct `PaymentResponse`). -/
structure PaymentResponse where
  RawResponse : String
  StatusCode : Nat
  Response : String
  ResponseText : String
  AuthCode : String
  TransactionID : String
  AVSResponse : String
  CVVResponse : String
  OrderID : String
  TypeF : String
  ResponseCode : String
  ErrorMessage : String := ""
  CustomerVaultID : String
deriving DecidableEq, Repr

/-- Tokenization result (Go struct `TokenizeResponse`). -/
structure TokenizeResponse where
  CustomerVaultID : String
  Token : String
  Masked : String
  CardType : String
  ExpiryDate : String
  Success : Bool
  Message : String
deriving DecidableEq, Repr

/-- The form payload `ProcessPayment` builds for the gateway: credential,
amount, type, optional order id, then either the vault id or the raw
card fields. -/
def buildPaymentForm (req : PaymentRequest) : List (String × String) :=
  [("security_key", req.APIKey), ("amount", req.Amount), ("type", req.TypeF)]
    ++ (if req.OrderID ≠ "" then [("orderid", req.OrderID)] else [])
    ++ (if req.CustomerVaultID ≠ "" then
          [("customer_vault_id", req.CustomerVaultID)]
        else
          [("ccnumber", req.CreditCard), ("ccexp", req.ExpDate), ("cvv", req.CVV)])

instance exceptDecEq {ε α : Type} [DecidableEq ε] [DecidableEq α] :
    DecidableEq (Except ε α) := fun x y =>
  match x, y with
  | .error a, .error b =>
    if h : a = b then .isTrue (by rw [h])
    else .isFalse (by intro hc; cases hc; exact h rfl)
  | .ok a, .ok b =>
    if h : a = b then .isTrue (by rw [h])
    else .isFalse (by intro hc; cases hc; exact h rfl)
  | .error _, .ok _ => .isFalse (by intro hc; cases hc)
  | .ok _, .error _ => .isFalse (by intro hc; cases hc)

/-- One `ProcessPayment` run: the returned value, the idempotency
registry afterwards (`transactionCache.processed`, modelled as the list
of recorded keys), and the form data dispatched to the gateway
(`none` when `sendRequest` was never reached). -/
structure PaymentOutcome where
  result : Except GoError PaymentResponse
  cache : List String
  sent : Option (List (String × String))
deriving DecidableEq, Repr

/-- `ProcessPayment`: duplicate check on the idempotency key, validation,
payload construction, dispatch, parse, and only then — on a response
that parsed with no error — recording of the idempotency key.  `cache`
is the idempotency registry going in; `gateway` is the outcome of the
single `sendRequest` call (raw reply or transport-level `NMIError`). -/
def ProcessPayment (cache : List String) (req : PaymentRequest)
    (currentYear currentMonth : Nat) (gateway : Except NMIError String) :
    PaymentOutcome :=
  if req.IdempotencyKey ≠ "" ∧ cache.contains req.IdempotencyKey then
    { result := .error (.nmi { Code := ErrDuplicateTransaction
                               Message := "duplicate transaction detected" })
      cache := cache, sent := none }
  else
    match ValidatePaymentRequest req currentYear currentMonth with
    | some e => { result := .error e, cache := cache, sent := none }
    | none =>
      let formData := buildPaymentForm req
      match gateway with
      | .error e => { result := .error (.nmi e), cache := cache, sent := some formData }
      | .ok resp =>
        match ParseNMIResponse resp with
        | .malformed =>
          { result := .error (.generic "failed to parse NMI response")
            cache := cache, sent := some formData }
        | .declined _ e =>
          { result := .error (.nmi e), cache := cache, sent := some formData }
        | .ok parsed =>
          { result := .ok
              { RawResponse := resp
                StatusCode := 200
                Response := parsed.Response
                ResponseText := parsed.ResponseText
                AuthCode := parsed.AuthCode
                TransactionID := parsed.TransactionID
                AVSResponse := parsed.AVSResponse
                CVVResponse := parsed.CVVResponse
                OrderID := parsed.OrderID
                TypeF := parsed.TypeF
                ResponseCode := parsed.ResponseCode
                CustomerVaultID := req.CustomerVaultID }
            cache := if req.IdempotencyKey ≠ "" then req.IdempotencyKey :: cache else cache
            sent := some formData }

/-- The billing portion of a form payload (`addBillingInfo`). -/
def billingForm (billing : BillingInfo) : List (String × String) :=
  [("first_name", billing.FirstName), ("last_name", billing.LastName),
   ("address1", billing.Address1), ("city", billing.City),
   ("state", billing.State), ("zip", billing.Zip),
   ("country", billing.Country), ("email", billing.Email),
   ("phone", billing.Phone)]

/-- The form payload `ProcessTokenization` builds: card fields, the dummy
amount `1.00`, a sale type with the add-customer vault marker, the
freshly generated vault id, and billing when present. -/
def buildTokenizeForm (req : PaymentRequest) (vaultID : String) : List (String × String) :=
  [("security_key", req.APIKey), ("ccnumber", req.CreditCard),
   ("ccexp", req.ExpDate), ("cvv", req.CVV), ("amount", "1.00"),
   ("type", "sale"), ("customer_vault", "add_customer"),
   ("customer_vault_id", vaultID)]
    ++ (match req.Billing with
        | some b => billingForm b
        | none => [])

/-- `ProcessTokenization`: validation, dispatch with a generated vault id
(`vaultID` models `generateUniqueVaultID()`), parse; any parse error —
including the classified error a non-`"1"` response produces — is
returned as the error, so the `TokenizeResponse` is only built from a
successfully parsed response. -/
def ProcessTokenization (req : PaymentRequest) (currentYear currentMonth : Nat)
    (vaultID : String) (gateway : Except NMIError String) :
    Except GoError TokenizeResponse :=
  match ValidatePaymentRequest req currentYear currentMonth with
  | some e => .error e
  | none =>
    match gateway with
    | .error e => .error (.nmi e)
    | .ok resp =>
      match ParseNMIResponse resp with
      | .malformed => .error (.generic "failed to parse NMI response")
      | .declined _ e => .error (.nmi e)
      | .ok parsed =>
        .ok { CustomerVaultID := vaultID
              Token := vaultID
              Masked := ExtractValue resp "cc_number"
              CardType := ExtractValue resp "card_type"
              ExpiryDate := req.ExpDate
              Success := parsed.Response == "1"
              Message := parsed.ResponseText }

/-! ## Specification-side formulations

These restate the spec's wording independently of the source functions,
for the theorems to compare against. -/

/-- Double a digit and digit-sum the result when it exceeds 9, as the
spec describes the Luhn treatment of every second digit. -/
def luhnDouble (d : Nat) : Nat :=
  if d * 2 > 9 then d * 2 % 10 + 1 else d * 2

/-- Positional Luhn sum: position `i` counts from the start of the given
list; digits at odd positions are doubled and digit-summed. -/
def specLuhnAux : Nat → List Char → Nat
  | _, [] => 0
  | i, c :: rest =>
    (if i % 2 = 1 then luhnDouble (digitVal c) else digitVal c) + specLuhnAux (i + 1) rest

/-- The spec's Luhn checksum: sum of the digits with every second digit,
counted from the rightmost (position 0 = rightmost, not doubled), doubled
and digit-summed when over 9. -/
def specLuhnSum (l : List Char) : Nat :=
  specLuhnAux 0 l.reverse

/-- The spec's card-shape condition: 13–19 digits after stripping. -/
def specCardShape (s : String) : Prop :=
  s.data.all Char.isDigit = true ∧ 13 ≤ s.data.length ∧ s.data.length ≤ 19

instance (s : String) : Decidable (specCardShape s) := by
  unfold specCardShape; infer_instance

/-- Month encoded in an MMYY expiry string. -/
def expiryMonth (s : String) : Nat := digitsToNat (s.data.take 2)

/-- Two-digit year encoded in an MMYY expiry string. -/
def expiryYear (s : String) : Nat := digitsToNat (s.data.drop 2)

/-- The spec's non-expired condition: not strictly before the current
month/year (two-digit year). -/
def specNotExpired (s : String) (currentYear currentMonth : Nat) : Prop :=
  ¬ (expiryYear s < currentYear ∨
     (expiryYear s = currentYear ∧ expiryMonth s < currentMonth))

instance (s : String) (cy cm : Nat) : Decidable (specNotExpired s cy cm) := by
  unfold specNotExpired; infer_instance

/-- The spec's CVV condition: 3–4 digits. -/
def specCVVOk (s : String) : Prop :=
  (s.data.length = 3 ∨ s.data.length = 4) ∧ s.data.all Char.isDigit = true

instance (s : String) : Decidable (specCVVOk s) := by
  unfold specCVVOk; infer_instance

/-- The spec's fixed classification table, written as the spec tabulates
it: 200, 201, 300, 400, 500, 600, 601, 700, and processing_error for
anything else or missing. -/
def specClassify (rc : String) : String :=
  if rc = "200" then ErrInvalidCard
  else if rc = "201" then ErrInvalidAmount
  else if rc = "300" then ErrAuthenticationFailed
  else if rc = "400" then ErrProcessingError
  else if rc = "500" then ErrSystemError
  else if rc = "600" then ErrInvalidAction
  else if rc = "601" then ErrDuplicateTransaction
  else if rc = "700" then ErrNetworkError
  else ErrProcessingError

/-- A well-formed keyed sale request (the spec's scenario card, amount,
expiry and CVV) carrying idempotency key "key-2"; a concrete test
vector. -/
def sampleKeyedSale : PaymentRequest :=
  { Amount := "10.99", TypeF := "sale", CreditCard := "4111111111111111",
    ExpDate := "1225", CVV := "123", IdempotencyKey := "key-2" }

/-- A concrete declined gateway reply (response 2, code 300). -/
def sampleDecline : String := "response=2&responsetext=DECLINE&response_code=300"

/-- A concrete successful gateway reply (the spec's scenario). -/
def sampleSuccess : String :=
  "response=1&responsetext=SUCCESS&transactionid=123&response_code=100"

/-! ## Theorems -/

/-- C7: every amount string that fails the `^\d+\.\d{2}$` pattern or
whose parsed float64 value is ≤ 0 is rejected by `validateAmount` with
the classified code `invalid_amount`.  (On pattern-matching strings the
float64 positivity test coincides with exact-decimal positivity: the
value is 0 exactly when every digit is 0, and rounding a positive
decimal of at least 0.01 stays positive.) -/
theorem c7_invalid_amount (s : String)
    (h : ¬ matchAmount s = true ∨ (goParseFloat s).le (GoFloat.finite 0) = true) :
    ∃ e, validateAmount s = some e ∧ e.Code = ErrInvalidAmount := by
  unfold validateAmount
  split
  · exact ⟨_, rfl, rfl⟩
  · split
    · exact ⟨_, rfl, rfl⟩
    · rename_i h1 h2
      rcases h with h | h
      · simp only [Decidable.not_not] at h1
        exact absurd h1 h
      · exact absurd h h2

/-- Witness for C7 at the spec's scenario: `"10.9"` (one decimal digit)
fails with `invalid_amount`. -/
theorem c7_invalid_amount_witness :
    ∃ e, validateAmount "10.9" = some e ∧ e.Code = ErrInvalidAmount :=
  c7_invalid_amount "10.9" (Or.inl (by decide))

set_option maxRecDepth 8192 in
/-- Counterexample to C8: the refund amount 9007199254740993.00 (2^53+1
dollars) strictly exceeds the known original 9007199254740992.00 (2^53)
in exact decimal value and is well-formatted and positive, yet
`ValidateRefundRequest` accepts it: `strconv.ParseFloat` rounds both
amounts to the same float64 (2^53, ties to even), so the Go comparison
`refundAmount > originalAmt` is false. -/
theorem c8_counterexample_float_rounding_collapse :
    decimalValue "9007199254740992.00" < decimalValue "9007199254740993.00"
    ∧ matchAmount "9007199254740993.00" = true
    ∧ goParseFloat "9007199254740993.00" = goParseFloat "9007199254740992.00"
    ∧ ValidateRefundRequest
        { TransactionID := "t1", Amount := "9007199254740993.00" }
        "9007199254740992.00" = none := by decide

/-- C8 as amended: a refund whose amount is well-formed and positive is
rejected with `invalid_refund` when the float64 value Go parses the
refund amount to exceeds the float64 value of the known (non-empty)
original amount — the comparison is between rounded binary64 values, so
exact-decimal exceedance within one unit in the last place of the
shared float64 is not detected. -/
theorem c8_amended_refund_exceeds_original (req : RefundRequest) (originalAmount : String)
    (htid : req.TransactionID ≠ "")
    (hfmt : matchAmount req.Amount = true)
    (hpos : (goParseFloat req.Amount).le (GoFloat.finite 0) = false)
    (horig : originalAmount ≠ "")
    (hexc : (goParseFloat originalAmount).lt (goParseFloat req.Amount) = true) :
    ValidateRefundRequest req originalAmount =
      some { Code := ErrInvalidRefund
             Message := "refund amount cannot exceed original transaction amount" } := by
  have hne : req.Amount ≠ "" := by
    intro h
    rw [h] at hfmt
    exact absurd hfmt (by decide)
  unfold ValidateRefundRequest
  rw [if_neg htid, if_pos hne, if_neg (by simp [hfmt]),
      if_neg (by simp [hpos]), if_pos horig, if_pos hexc]

/-- Witness for the amended C8: refunding 20.00 against an original of
10.00 (floats 20 and 10). -/
theorem c8_amended_refund_exceeds_original_witness :
    ValidateRefundRequest { TransactionID := "t1", Amount := "20.00" } "10.00" =
      some { Code := ErrInvalidRefund
             Message := "refund amount cannot exceed original transaction amount" } :=
  c8_amended_refund_exceeds_original _ _ (by decide) (by decide) (by decide)
    (by decide) (by decide)

/-- C10: a refund request with a transaction id and an empty amount
passes validation for every original amount — the empty amount skips
the format, positivity, and exceeds-original checks entirely. -/
theorem c10_refund_empty_amount_skips_checks (req : RefundRequest) (originalAmount : String)
    (htid : req.TransactionID ≠ "") (hamt : req.Amount = "") :
    ValidateRefundRequest req originalAmount = none := by
  unfold ValidateRefundRequest
  rw [if_neg htid, if_neg (by simp [hamt])]

/-- Witness for C10: an empty refund amount validates even against a
smaller known original amount. -/
theorem c10_refund_empty_amount_skips_checks_witness :
    ValidateRefundRequest { TransactionID := "t7", Amount := "" } "5.00" = none :=
  c10_refund_empty_amount_skips_checks _ _ (by decide) rfl

/-- The Go map lookup in `ParseNMIErrorResponse`, with its
processing_error default, agrees with the spec's table. -/
theorem lookup_codeMap_classify (rc : String) :
    (match codeMap.lookup rc with
     | some c => c
     | none => ErrProcessingError) = specClassify rc := by
  by_cases h1 : rc = "200"
  · simp [codeMap, List.lookup, specClassify, h1]
  by_cases h2 : rc = "201"
  · simp [codeMap, List.lookup, specClassify, h1, h2]
  by_cases h3 : rc = "300"
  · simp [codeMap, List.lookup, specClassify, h1, h2, h3]
  by_cases h4 : rc = "400"
  · simp [codeMap, List.lookup, specClassify, h1, h2, h3, h4]
  by_cases h5 : rc = "500"
  · simp [codeMap, List.lookup, specClassify, h1, h2, h3, h4, h5]
  by_cases h6 : rc = "600"
  · simp [codeMap, List.lookup, specClassify, h1, h2, h3, h4, h5, h6]
  by_cases h7 : rc = "601"
  · simp [codeMap, List.lookup, specClassify, h1, h2, h3, h4, h5, h6, h7]
  by_cases h8 : rc = "700"
  · simp [codeMap, List.lookup, specClassify, h1, h2, h3, h4, h5, h6, h7, h8]
  have e1 : (rc == "200") = false := beq_eq_false_iff_ne.mpr h1
  have e2 : (rc == "201") = false := beq_eq_false_iff_ne.mpr h2
  have e3 : (rc == "300") = false := beq_eq_false_iff_ne.mpr h3
  have e4 : (rc == "400") = false := beq_eq_false_iff_ne.mpr h4
  have e5 : (rc == "500") = false := beq_eq_false_iff_ne.mpr h5
  have e6 : (rc == "600") = false := beq_eq_false_iff_ne.mpr h6
  have e7 : (rc == "601") = false := beq_eq_false_iff_ne.mpr h7
  have e8 : (rc == "700") = false := beq_eq_false_iff_ne.mpr h8
  simp [codeMap, List.lookup, specClassify, e1, e2, e3, e4, e5, e6, e7, e8,
    h1, h2, h3, h4, h5, h6, h7, h8]

/-- C3: every decodable gateway response whose `response` field is not
`"1"` is classified through the spec's fixed table on its
`response_code` field (processing_error for anything unmapped or
missing), with the response text as the error message and the raw wire
text retained. -/
theorem c3_error_classification (raw : String)
    (hok : (parseQuery raw).2 = true)
    (hne : getField raw "response" ≠ "1") :
    ∃ r e, ParseNMIResponse raw = .declined r e
      ∧ e.Code = specClassify (getField raw "response_code")
      ∧ e.Message = getField raw "responsetext"
      ∧ e.Raw = raw := by
  have hcond : (projectResponse raw).Response ≠ "1" := hne
  refine ⟨projectResponse raw,
    ParseNMIErrorResponse (projectResponse raw).ResponseText
      (projectResponse raw).ResponseCode raw, ?_, ?_, rfl, rfl⟩
  · unfold ParseNMIResponse
    rw [if_pos hok, if_pos hcond]
  · exact lookup_codeMap_classify _

/-- Witness for C3 at the spec's scenario: response code 300 with text
DECLINE classifies as authentication_failed with message "DECLINE". -/
theorem c3_error_classification_witness :
    ∃ r e, ParseNMIResponse "response=2&responsetext=DECLINE&response_code=300" =
        .declined r e
      ∧ e.Code = ErrAuthenticationFailed ∧ e.Message = "DECLINE" := by
  obtain ⟨r, e, h, hc, hm, _⟩ :=
    c3_error_classification "response=2&responsetext=DECLINE&response_code=300"
      (by decide) (by decide)
  refine ⟨r, e, h, ?_, ?_⟩
  · rw [hc]; decide
  · rw [hm]; decide

/-- C4: parsing a raw gateway response succeeds — returns a typed record
with no error — exactly when the wire text decodes and its `response`
field is the literal `"1"`; any other decodable `response` value yields
the classified-error outcome; and the spec's success scenario parses to
a record with transaction id `"123"`. -/
theorem c4_parse_success_iff (raw : String) :
    ((∃ r, ParseNMIResponse raw = .ok r) ↔
       ((parseQuery raw).2 = true ∧ getField raw "response" = "1"))
    ∧ ((parseQuery raw).2 = true → getField raw "response" ≠ "1" →
        ∃ r e, ParseNMIResponse raw = .declined r e)
    ∧ (∃ r, ParseNMIResponse
          "response=1&responsetext=SUCCESS&transactionid=123&response_code=100" = .ok r
        ∧ r.TransactionID = "123") := by
  refine ⟨⟨?_, ?_⟩, ?_, ?_⟩
  · rintro ⟨r, hr⟩
    unfold ParseNMIResponse at hr
    by_cases hok : (parseQuery raw).2 = true
    · refine ⟨hok, ?_⟩
      rw [if_pos hok] at hr
      by_cases hne : (projectResponse raw).Response ≠ "1"
      · rw [if_pos hne] at hr
        cases hr
      · simpa [projectResponse] using hne
    · rw [if_neg hok] at hr
      cases hr
  · rintro ⟨hok, h1⟩
    refine ⟨projectResponse raw, ?_⟩
    unfold ParseNMIResponse
    rw [if_pos hok, if_neg (by simpa [projectResponse] using h1)]
  · intro hok hne
    have hcond : (projectResponse raw).Response ≠ "1" := hne
    refine ⟨projectResponse raw,
      ParseNMIErrorResponse (projectResponse raw).ResponseText
        (projectResponse raw).ResponseCode raw, ?_⟩
    unfold ParseNMIResponse
    rw [if_pos hok, if_pos hcond]
  · exact ⟨projectResponse
      "response=1&responsetext=SUCCESS&transactionid=123&response_code=100",
      by decide, by decide⟩

/-- Witness for C4's implications at a concrete declined response. -/
theorem c4_parse_success_iff_witness :
    ∃ r e, ParseNMIResponse "response=3&responsetext=DUP&response_code=601" =
      .declined r e :=
  (c4_parse_success_iff "response=3&responsetext=DUP&response_code=601").2.1
    (by decide) (by decide)

/-- The Go Luhn loop, started with a flag agreeing with the parity of
position `i`, computes the positional Luhn sum from position `i`. -/
theorem luhnLoop_eq_specLuhnAux (l : List Char) :
    ∀ i, luhnLoop l (decide (i % 2 = 1)) = specLuhnAux i l := by
  induction l with
  | nil => intro i; rfl
  | cons c rest ih =>
    intro i
    unfold luhnLoop specLuhnAux
    have hflip : (!decide (i % 2 = 1)) = decide ((i + 1) % 2 = 1) := by
      rcases Nat.mod_two_eq_zero_or_one i with h | h <;> simp [Nat.add_mod, h]
    rw [hflip, ih (i + 1)]
    by_cases h : i % 2 = 1 <;> simp [h, luhnDouble]

/-- The Luhn loop of `validateCreditCard` over a reversed digit list is
the spec's Luhn checksum (every second digit from the rightmost doubled
and digit-summed). -/
theorem luhnLoop_reverse_eq_specLuhnSum (l : List Char) :
    luhnLoop l.reverse false = specLuhnSum l := by
  have h := luhnLoop_eq_specLuhnAux l.reverse 0
  simpa [specLuhnSum] using h

/-- C6: a card number whose stripped form is not 13–19 digits or fails
the spec's Luhn checksum is rejected with `invalid_card`; a stripped
13–19-digit Luhn-valid number together with a well-formed non-expired
MMYY expiry and a 3–4-digit CVV passes all three card validators. -/
theorem c6_card_validation (number expDate cvv : String) (cy cm : Nat) :
    ((¬ specCardShape (stripSpacesHyphens number) ∨
        specLuhnSum (stripSpacesHyphens number).data % 10 ≠ 0) →
      ∃ e, validateCreditCard number = some e ∧ e.Code = ErrInvalidCard)
    ∧ ((specCardShape (stripSpacesHyphens number) ∧
        specLuhnSum (stripSpacesHyphens number).data % 10 = 0 ∧
        matchExpiry expDate = true ∧ specNotExpired expDate cy cm ∧ specCVVOk cvv) →
      validateCreditCard number = none ∧
      validateExpirationDate expDate cy cm = none ∧
      validateCVV cvv = none) := by
  constructor
  · intro h
    unfold validateCreditCard
    split
    · exact ⟨_, rfl, rfl⟩
    · split
      · exact ⟨_, rfl, rfl⟩
      · rename_i hshape hluhn
        rw [Decidable.not_not] at hshape
        rw [Decidable.not_not, luhnLoop_reverse_eq_specLuhnSum] at hluhn
        rcases h with h | h
        · exact absurd hshape h
        · exact absurd hluhn h
  · rintro ⟨hshape, hluhn, hexp, hnexp, hcvv⟩
    refine ⟨?_, ?_, ?_⟩
    · unfold validateCreditCard
      rw [if_neg (fun hn => hn hshape),
        if_neg (fun hn => hn (by rw [luhnLoop_reverse_eq_specLuhnSum]; exact hluhn))]
    · have hnexp' : ¬ (digitsToNat (expDate.data.drop 2) < cy ∨
          (digitsToNat (expDate.data.drop 2) = cy ∧
           digitsToNat (expDate.data.take 2) < cm)) := hnexp
      unfold validateExpirationDate
      rw [if_neg (fun hn => hn hexp), if_neg hnexp']
    · unfold validateCVV
      rw [if_neg (fun hn => hn hcvv)]

/-- Witness for C6: a 13-digit Luhn-failing number is rejected with
`invalid_card`, and the spec's scenario card (with spaces), expiry 1225,
and CVV 123 all validate. -/
theorem c6_card_validation_witness :
    (∃ e, validateCreditCard "1111111111111" = some e ∧ e.Code = ErrInvalidCard)
    ∧ (validateCreditCard "4111 1111 1111 1111" = none ∧
       validateExpirationDate "1225" 25 1 = none ∧
       validateCVV "123" = none) :=
  ⟨(c6_card_validation "1111111111111" "1225" "123" 25 1).1 (Or.inr (by decide)),
   (c6_card_validation "4111 1111 1111 1111" "1225" "123" 25 1).2
     ⟨by decide, by decide, by decide, by decide, by decide⟩⟩

/-- Every error `validateAmount` produces carries `invalid_amount`. -/
theorem validateAmount_code {s : String} {e : NMIError}
    (h : validateAmount s = some e) : e.Code = ErrInvalidAmount := by
  unfold validateAmount at h
  split at h
  · cases h; rfl
  · split at h
    · cases h; rfl
    · cases h

/-- Every error `validateTransactionType` produces carries
`invalid_request`. -/
theorem validateTransactionType_code {s : String} {e : NMIError}
    (h : validateTransactionType s = some e) : e.Code = ErrInvalidRequest := by
  unfold validateTransactionType at h
  split at h
  · cases h; rfl
  · cases h

/-- Every error `validateCreditCard` produces carries `invalid_card`. -/
theorem validateCreditCard_code {s : String} {e : NMIError}
    (h : validateCreditCard s = some e) : e.Code = ErrInvalidCard := by
  unfold validateCreditCard at h
  split at h
  · cases h; rfl
  · split at h
    · cases h; rfl
    · cases h

/-- Every error `validateExpirationDate` produces carries
`invalid_card`. -/
theorem validateExpirationDate_code {s : String} {cy cm : Nat} {e : NMIError}
    (h : validateExpirationDate s cy cm = some e) : e.Code = ErrInvalidCard := by
  unfold validateExpirationDate at h
  split at h
  · cases h; rfl
  · split at h
    · cases h; rfl
    · cases h

/-- Every error `validateCVV` produces carries `invalid_card`. -/
theorem validateCVV_code {s : String} {e : NMIError}
    (h : validateCVV s = some e) : e.Code = ErrInvalidCard := by
  unfold validateCVV at h
  split at h
  · cases h; rfl
  · cases h

/-- Every error `validateBillingInfo` produces carries
`invalid_request`. -/
theorem validateBillingInfo_code {b : BillingInfo} {e : NMIError}
    (h : validateBillingInfo b = some e) : e.Code = ErrInvalidRequest := by
  unfold validateBillingInfo at h
  split at h
  · cases h; rfl
  · split at h
    · cases h; rfl
    · split at h
      · cases h; rfl
      · split at h
        · cases h; rfl
        · cases h

/-- Every error the billing step of `ValidatePaymentRequest` produces is
a classified `invalid_request`. -/
theorem checkBilling_code {req : PaymentRequest} {e : GoError}
    (h : checkBilling req = some e) :
    ∃ n, e = .nmi n ∧ n.Code = ErrInvalidRequest := by
  unfold checkBilling at h
  split at h
  · rename_i b heq
    cases hb : validateBillingInfo b with
    | none => rw [hb] at h; cases h
    | some n =>
      rw [hb] at h
      cases h
      exact ⟨n, rfl, validateBillingInfo_code hb⟩
  · cases h

/-- Counterexample to C5: a payment request with a missing amount fails
validation with the unclassified generic error "amount is required",
not a classified error record. -/
theorem c5_counterexample_missing_amount_generic :
    ValidatePaymentRequest
      { Amount := "", TypeF := "sale", CreditCard := "4111111111111111",
        ExpDate := "1225", CVV := "123" } 25 1 =
      some (.generic "amount is required") := by decide

/-- C5 as amended: every validation failure is either a classified
error record carrying one of the taxonomy codes invalid_amount /
invalid_request / invalid_card, or one of the four unclassified generic
presence errors — missing amount, missing type, missing card fields, or
a too-short vault identifier. -/
theorem c5_amended_validation_errors (req : PaymentRequest) (cy cm : Nat) (e : GoError)
    (h : ValidatePaymentRequest req cy cm = some e) :
    (∃ n, e = .nmi n ∧
      (n.Code = ErrInvalidAmount ∨ n.Code = ErrInvalidRequest ∨ n.Code = ErrInvalidCard))
    ∨ e = .generic "amount is required"
    ∨ e = .generic "type is required"
    ∨ e = .generic "either customer_vault_id or credit_card, exp_date, and cvv are required"
    ∨ e = .generic "customer_vault_id must be at least 8 characters" := by
  unfold ValidatePaymentRequest at h
  split at h
  · cases h
    right; left; rfl
  · split at h
    · rename_i n heq
      cases h
      exact Or.inl ⟨n, rfl, Or.inl (validateAmount_code heq)⟩
    · split at h
      · cases h
        right; right; left; rfl
      · split at h
        · rename_i n heq
          cases h
          exact Or.inl ⟨n, rfl, Or.inr (Or.inl (validateTransactionType_code heq))⟩
        · split at h
          · split at h
            · cases h
              right; right; right; left; rfl
            · split at h
              · rename_i n heq
                cases h
                exact Or.inl ⟨n, rfl, Or.inr (Or.inr (validateCreditCard_code heq))⟩
              · split at h
                · rename_i n heq
                  cases h
                  exact Or.inl ⟨n, rfl, Or.inr (Or.inr (validateExpirationDate_code heq))⟩
                · split at h
                  · rename_i n heq
                    cases h
                    exact Or.inl ⟨n, rfl, Or.inr (Or.inr (validateCVV_code heq))⟩
                  · obtain ⟨n, hn, hc⟩ := checkBilling_code h
                    exact Or.inl ⟨n, hn, Or.inr (Or.inl hc)⟩
          · split at h
            · cases h
              right; right; right; right; rfl
            · obtain ⟨n, hn, hc⟩ := checkBilling_code h
              exact Or.inl ⟨n, hn, Or.inr (Or.inl hc)⟩

/-- Witness for the amended C5 at the missing-amount input, whose error
is the generic "amount is required". -/
theorem c5_amended_validation_errors_witness :
    (∃ n, GoError.generic "amount is required" = .nmi n ∧
      (n.Code = ErrInvalidAmount ∨ n.Code = ErrInvalidRequest ∨ n.Code = ErrInvalidCard))
    ∨ GoError.generic "amount is required" = .generic "amount is required"
    ∨ GoError.generic "amount is required" = .generic "type is required"
    ∨ GoError.generic "amount is required" =
        .generic "either customer_vault_id or credit_card, exp_date, and cvv are required"
    ∨ GoError.generic "amount is required" =
        .generic "customer_vault_id must be at least 8 characters" :=
  c5_amended_validation_errors
    { Amount := "", TypeF := "sale", CreditCard := "4111111111111111",
      ExpDate := "1225", CVV := "123" } 25 1
    (.generic "amount is required") (by decide)

/-- Case analysis on `ProcessPayment`: it either returns an error and
leaves the idempotency registry untouched, or returns success and
records the key (when non-empty). -/
theorem processPayment_cases (cache : List String) (req : PaymentRequest)
    (cy cm : Nat) (g : Except NMIError String) :
    (∃ e, (ProcessPayment cache req cy cm g).result = .error e ∧
          (ProcessPayment cache req cy cm g).cache = cache)
    ∨ ((∃ p, (ProcessPayment cache req cy cm g).result = .ok p) ∧
       (ProcessPayment cache req cy cm g).cache =
         (if req.IdempotencyKey ≠ "" then req.IdempotencyKey :: cache else cache)) := by
  unfold ProcessPayment
  split
  · exact Or.inl ⟨_, rfl, rfl⟩
  · split
    · exact Or.inl ⟨_, rfl, rfl⟩
    · split
      · exact Or.inl ⟨_, rfl, rfl⟩
      · split
        · exact Or.inl ⟨_, rfl, rfl⟩
        · exact Or.inl ⟨_, rfl, rfl⟩
        · exact Or.inr ⟨⟨_, rfl⟩, rfl⟩

/-- C1: once a keyed sale has returned success, a second submission with
the same idempotency key — whatever its other field values, validity,
clock, or gateway behaviour — is rejected with `duplicate_transaction`
and dispatches nothing to the gateway. -/
theorem c1_duplicate_key_rejected_without_network
    (cache : List String) (req1 req2 : PaymentRequest)
    (cy1 cm1 cy2 cm2 : Nat) (g1 g2 : Except NMIError String)
    (hkey : req1.IdempotencyKey ≠ "")
    (hsame : req2.IdempotencyKey = req1.IdempotencyKey)
    (hok : ∃ p, (ProcessPayment cache req1 cy1 cm1 g1).result = .ok p) :
    (ProcessPayment (ProcessPayment cache req1 cy1 cm1 g1).cache req2 cy2 cm2 g2).result
      = .error (.nmi { Code := ErrDuplicateTransaction
                       Message := "duplicate transaction detected" })
    ∧ (ProcessPayment (ProcessPayment cache req1 cy1 cm1 g1).cache req2 cy2 cm2 g2).sent
      = none := by
  have hcache : (ProcessPayment cache req1 cy1 cm1 g1).cache =
      req1.IdempotencyKey :: cache := by
    rcases processPayment_cases cache req1 cy1 cm1 g1 with ⟨e, he, _⟩ | ⟨_, hc⟩
    · obtain ⟨p, hp⟩ := hok
      rw [he] at hp
      cases hp
    · rw [hc, if_pos hkey]
  have hkey2 : req2.IdempotencyKey ≠ "" := by
    rw [hsame]
    exact hkey
  have hmem : ((ProcessPayment cache req1 cy1 cm1 g1).cache).contains
      req2.IdempotencyKey = true := by
    rw [hcache, hsame]
    simp
  constructor <;>
  · unfold ProcessPayment
    rw [if_pos ⟨hkey2, hmem⟩]

/-- Witness for C1: a successful keyed sale followed by a replay of the
same key with different fields is rejected without a network call. -/
theorem c1_duplicate_key_rejected_without_network_witness :
    (ProcessPayment (ProcessPayment [] sampleKeyedSale 25 1 (.ok sampleSuccess)).cache
        { Amount := "99.99", TypeF := "zzz", IdempotencyKey := "key-2" }
        25 1 (.ok sampleDecline)).result
      = .error (.nmi { Code := ErrDuplicateTransaction
                       Message := "duplicate transaction detected" })
    ∧ (ProcessPayment (ProcessPayment [] sampleKeyedSale 25 1 (.ok sampleSuccess)).cache
        { Amount := "99.99", TypeF := "zzz", IdempotencyKey := "key-2" }
        25 1 (.ok sampleDecline)).sent = none :=
  c1_duplicate_key_rejected_without_network [] sampleKeyedSale
    { Amount := "99.99", TypeF := "zzz", IdempotencyKey := "key-2" }
    25 1 25 1 (.ok sampleSuccess) (.ok sampleDecline)
    (by decide) (by decide) ⟨_, rfl⟩

/-- Counterexample to C2: a keyed sale is dispatched (form data sent),
the upstream call fails with a classified decline, and the key is NOT
recorded — the registry stays empty and an immediate replay with the
same key is dispatched again instead of being rejected as a
duplicate. -/
theorem c2_counterexample_failed_call_not_remembered :
    (ProcessPayment [] sampleKeyedSale 25 1 (.ok sampleDecline)).sent.isSome = true
    ∧ (ProcessPayment [] sampleKeyedSale 25 1 (.ok sampleDecline)).result
        = .error (.nmi { Code := ErrAuthenticationFailed, Message := "DECLINE",
                         Details := "", Raw := sampleDecline })
    ∧ (ProcessPayment [] sampleKeyedSale 25 1 (.ok sampleDecline)).cache = []
    ∧ (ProcessPayment (ProcessPayment [] sampleKeyedSale 25 1 (.ok sampleDecline)).cache
        sampleKeyedSale 25 1 (.ok sampleDecline)).sent.isSome = true
    ∧ (ProcessPayment (ProcessPayment [] sampleKeyedSale 25 1 (.ok sampleDecline)).cache
        sampleKeyedSale 25 1 (.ok sampleDecline)).result
        ≠ .error (.nmi { Code := ErrDuplicateTransaction
                         Message := "duplicate transaction detected" }) := by decide

/-- C2 as amended: the idempotency key is recorded only when the
dispatched call's response parses as success (`response == "1"`); on
any error outcome — decline, classified error, parse failure, or
transport failure — the registry is left unchanged. -/
theorem c2_amended_key_marked_only_on_success (cache : List String)
    (req : PaymentRequest) (cy cm : Nat) (g : Except NMIError String) :
    ((∃ p, (ProcessPayment cache req cy cm g).result = .ok p) →
      (ProcessPayment cache req cy cm g).cache =
        (if req.IdempotencyKey ≠ "" then req.IdempotencyKey :: cache else cache))
    ∧ (∀ e, (ProcessPayment cache req cy cm g).result = .error e →
      (ProcessPayment cache req cy cm g).cache = cache) := by
  constructor
  · intro hok
    rcases processPayment_cases cache req cy cm g with ⟨e, he, _⟩ | ⟨_, hc⟩
    · obtain ⟨p, hp⟩ := hok
      rw [he] at hp
      cases hp
    · exact hc
  · intro e he
    rcases processPayment_cases cache req cy cm g with ⟨e', _, hc⟩ | ⟨⟨p, hp⟩, _⟩
    · exact hc
    · rw [hp] at he
      cases he

/-- Witness for the amended C2: a successful keyed sale records its key;
a declined one leaves the registry empty. -/
theorem c2_amended_key_marked_only_on_success_witness :
    (ProcessPayment [] sampleKeyedSale 25 1 (.ok sampleSuccess)).cache = ["key-2"]
    ∧ (ProcessPayment [] sampleKeyedSale 25 1 (.ok sampleDecline)).cache = [] := by
  constructor
  · have h := (c2_amended_key_marked_only_on_success [] sampleKeyedSale 25 1
      (.ok sampleSuccess)).1 ⟨_, rfl⟩
    rw [h]
    decide
  · exact (c2_amended_key_marked_only_on_success [] sampleKeyedSale 25 1
      (.ok sampleDecline)).2
      (.nmi { Code := ErrAuthenticationFailed, Message := "DECLINE",
              Details := "", Raw := sampleDecline }) (by decide)

/-- Counterexample to C9: a tokenization request that passes validation
and whose gateway submission returns a parseable declined response does
NOT return a tokenize result — the classified error is returned
instead. -/
theorem c9_counterexample_decline_returns_error :
    ProcessTokenization sampleKeyedSale 25 1 "12345678" (.ok sampleDecline) =
      .error (.nmi { Code := ErrAuthenticationFailed, Message := "DECLINE",
                     Details := "", Raw := sampleDecline }) := by decide

/-- C9 as amended: a validated tokenization request with a parseable
gateway response yields a tokenize result only when the response field
is `"1"` — the success flag is then true and the result carries the
generated vault id and the extracted masked card and card type; for any
other response value the classified error is returned instead of a
result. -/
theorem c9_amended_tokenize_success_only (req : PaymentRequest) (cy cm : Nat)
    (vid raw : String)
    (hval : ValidatePaymentRequest req cy cm = none)
    (hok : (parseQuery raw).2 = true) :
    (getField raw "response" = "1" →
      ProcessTokenization req cy cm vid (.ok raw) =
        .ok { CustomerVaultID := vid, Token := vid,
              Masked := ExtractValue raw "cc_number",
              CardType := ExtractValue raw "card_type",
              ExpiryDate := req.ExpDate, Success := true,
              Message := getField raw "responsetext" })
    ∧ (getField raw "response" ≠ "1" →
      ∃ e, ProcessTokenization req cy cm vid (.ok raw) = .error (.nmi e) ∧
        e.Code = specClassify (getField raw "response_code")) := by
  constructor
  · intro h1
    have hparse : ParseNMIResponse raw = .ok (projectResponse raw) := by
      unfold ParseNMIResponse
      rw [if_pos hok, if_neg (fun hn => hn h1)]
    have hsucc : ((projectResponse raw).Response == "1") = true := by
      have h2 : (projectResponse raw).Response = "1" := h1
      rw [h2]
      rfl
    unfold ProcessTokenization
    simp only [hval, hparse, hsucc]
    rfl
  · intro h1
    have hcond : (projectResponse raw).Response ≠ "1" := h1
    have hparse : ParseNMIResponse raw = .declined (projectResponse raw)
        (ParseNMIErrorResponse (projectResponse raw).ResponseText
          (projectResponse raw).ResponseCode raw) := by
      unfold ParseNMIResponse
      rw [if_pos hok, if_pos hcond]
    unfold ProcessTokenization
    simp only [hval, hparse]
    exact ⟨_, rfl, lookup_codeMap_classify _⟩

/-- Witness for the amended C9: the spec's success reply tokenizes with
the success flag set, and the declined reply yields the classified
authentication_failed error. -/
theorem c9_amended_tokenize_success_only_witness :
    ProcessTokenization sampleKeyedSale 25 1 "12345678" (.ok sampleSuccess) =
      .ok { CustomerVaultID := "12345678", Token := "12345678",
            Masked := ExtractValue sampleSuccess "cc_number",
            CardType := ExtractValue sampleSuccess "card_type",
            ExpiryDate := sampleKeyedSale.ExpDate, Success := true,
            Message := getField sampleSuccess "responsetext" } :=
  (c9_amended_tokenize_success_only sampleKeyedSale 25 1 "12345678" sampleSuccess
    (by decide) (by decide)).1 (by decide)

end NMIPay
